import Mathlib

/-!
Shallow embedding of the cso2-master-server lobby/room and user-manager
logic, with theorems checking the natural-language specification against
the code.

Sources embedded:
* `src/unnamed/part_001` — the `Room` class (options, membership,
  host election, removal broadcasts).
* `src/src/user/user.ts` — `User.get`/`User.getByName`,
  `UserManager.validateCredentials`, the login packet handler and the
  `Host.SetInventory`/`SetLoadout`/`SetBuyMenu` handlers.

JavaScript numbers are modelled as `Int`, strings as `String`, nullable
values as `Option`, and side effects (socket writes, gateway fetches,
callbacks) as explicit event lists returned by the embedded functions.
-/

namespace CSO2

/-- A user account snapshot (`src/src/user/user.ts`, class `User`). -/
structure User where
  userId : Nat
  userName : String
  playerName : String
  level : Nat
  avatar : Nat
  curExp : Nat
  maxExp : Nat
  rank : Nat
  vipLevel : Nat
  wins : Nat
  kills : Nat
  deaths : Nat
  assists : Nat
  deriving DecidableEq, Repr

/-- `User.isVip` from `src/src/user/user.ts`: `this.vipLevel !== 0`. -/
def User.isVip (u : User) : Bool :=
  u.vipLevel != 0

/-- The `IRoomOptions` interface of `src/unnamed/part_001`: every field is
optional (`undefined` = `none`). -/
structure IRoomOptions where
  roomName : Option String := none
  gameModeId : Option Int := none
  mapId : Option Int := none
  winLimit : Option Int := none
  killLimit : Option Int := none
  startMoney : Option Int := none
  forceCamera : Option Int := none
  nextMapEnabled : Option Int := none
  changeTeams : Option Int := none
  enableBots : Option Int := none
  difficulty : Option Int := none
  respawnTime : Option Int := none
  teamBalance : Option Int := none
  weaponRestrictions : Option Int := none
  hltvEnabled : Option Int := none
  deriving DecidableEq, Repr

/-- JavaScript truthiness of an optional number: `undefined` and `0` are
falsy, every other number is truthy. -/
def numTruthy : Option Int → Bool
  | none => false
  | some v => v != 0

/-- The constructor idiom `options.x ? options.x : dflt` for an optional
numeric option: a truthy (present and nonzero) value is kept, otherwise
the default applies. -/
def numOrDefault (o : Option Int) (dflt : Int) : Int :=
  match o with
  | none => dflt
  | some v => if v != 0 then v else dflt

/-- The constructor idiom `options.x ? options.x : dflt` for an optional
string option: a truthy (present and non-empty) value is kept, otherwise
the default applies. -/
def strOrDefault (o : Option String) (dflt : String) : String :=
  match o with
  | none => dflt
  | some s => if s != "" then s else dflt

/-- The `Room` class of `src/unnamed/part_001`. The parent channel is
modelled by its id; sockets are not modelled, writes become events. -/
structure Room where
  id : Nat
  roomName : String
  maxPlayers : Int
  gameModeId : Int
  mapId : Int
  winLimit : Int
  killLimit : Int
  startMoney : Int
  forceCamera : Int
  nextMapEnabled : Int
  changeTeams : Int
  enableBots : Int
  difficulty : Int
  respawnTime : Int
  teamBalance : Int
  weaponRestrictions : Int
  hltvEnabled : Int
  host : User
  users : List User
  parentChannel : Nat
  deriving DecidableEq, Repr

/-- Observable effects of the `Room` operations: the empty-room callback
invocation and the per-member socket writes. -/
inductive RoomEvent where
  /-- `emptyRoomCallback(this, this.parentChannel)` was invoked. -/
  | emptyRoomCallback (roomId : Nat) (channelId : Nat)
  /-- a `setHost(newHostId)` packet was written to member `recipientId`. -/
  | setHost (recipientId : Nat) (newHostId : Nat)
  /-- a `playerLeave(removedId)` packet was written to member `recipientId`. -/
  | playerLeave (recipientId : Nat) (removedId : Nat)
  deriving DecidableEq, Repr

/-- The `Room` constructor of `src/unnamed/part_001`: option defaulting by
JS truthiness, `maxPlayers` from `enableBots`, then `addUser(host)`. -/
def Room.construct (roomId : Nat) (host : User) (parentChannel : Nat)
    (options : IRoomOptions) : Room :=
  { id := roomId
    host := host
    parentChannel := parentChannel
    roomName := strOrDefault options.roomName ("Room #" ++ toString roomId)
    gameModeId := numOrDefault options.gameModeId 0
    mapId := numOrDefault options.mapId 1
    winLimit := numOrDefault options.winLimit 10
    killLimit := numOrDefault options.killLimit 150
    startMoney := numOrDefault options.startMoney 16000
    forceCamera := numOrDefault options.forceCamera 1
    nextMapEnabled := numOrDefault options.nextMapEnabled 0
    changeTeams := numOrDefault options.changeTeams 0
    enableBots := numOrDefault options.enableBots 0
    difficulty := numOrDefault options.difficulty 0
    maxPlayers := if numTruthy options.enableBots then 16 else 32
    respawnTime := numOrDefault options.respawnTime 3
    teamBalance := numOrDefault options.teamBalance 0
    weaponRestrictions := numOrDefault options.weaponRestrictions 0
    hltvEnabled := numOrDefault options.hltvEnabled 0
    users := [host] }

/-- `Room.getFreeSlots`: `maxPlayers - users.length`, clamped at zero. -/
def Room.getFreeSlots (r : Room) : Int :=
  let availableSlots : Int := r.maxPlayers - r.users.length
  if availableSlots >= 0 then availableSlots else 0

/-- `Room.hasFreeSlots`: `getFreeSlots() !== 0`. -/
def Room.hasFreeSlots (r : Room) : Bool :=
  r.getFreeSlots != 0

/-- `Room.addUser`: `this.users.push(user)`. -/
def Room.addUser (r : Room) (user : User) : Room :=
  { r with users := r.users ++ [user] }

/-- The removal loop of `Room.removeUser`: remove the first member equal to
the target, or report that none matched. -/
def removeFirstUser : List User → User → Option (List User)
  | [], _ => none
  | u :: rest, target =>
    if u = target then some rest
    else (removeFirstUser rest target).map (u :: ·)

/-- The removal loop of `Room.removeUserById`: remove the first member with
the given user id, or report that none matched. -/
def removeFirstById : List User → Nat → Option (List User)
  | [], _ => none
  | u :: rest, uid =>
    if u.userId = uid then some rest
    else (removeFirstById rest uid).map (u :: ·)

/-- `Room.sendRemovedUser`: write `playerLeave(userId)` to every current
member. -/
def Room.sendRemovedUser (r : Room) (userId : Nat) : List RoomEvent :=
  r.users.map fun u => RoomEvent.playerLeave u.userId userId

/-- `Room.updateHost`: set the host, then write `setHost(host)` to every
current member. -/
def Room.updateHost (r : Room) (newHost : User) : Room × List RoomEvent :=
  let r' := { r with host := newHost }
  (r', r'.users.map fun u => RoomEvent.setHost u.userId newHost.userId)

/-- `Room.findAndUpdateNewHost`: promote `users[0]` when the room is
non-empty, reporting whether a host was found. -/
def Room.findAndUpdateNewHost (r : Room) : Room × List RoomEvent × Bool :=
  match r.users with
  | [] => (r, [], false)
  | u :: _ =>
    let res := r.updateHost u
    (res.1, res.2, true)

/-- `Room.onUserRemoved`: on an empty room invoke the empty-room callback;
otherwise always re-elect a host and broadcast the departure. -/
def Room.onUserRemoved (r : Room) (userId : Nat) : Room × List RoomEvent :=
  if r.users.length = 0 then
    (r, [RoomEvent.emptyRoomCallback r.id r.parentChannel])
  else
    let res := r.findAndUpdateNewHost
    (res.1, res.2.1 ++ res.1.sendRemovedUser userId)

/-- `Room.removeUser`: remove the first member identical to `targetUser`
and run the removal continuation; a non-member leaves the room untouched. -/
def Room.removeUser (r : Room) (targetUser : User) : Room × List RoomEvent :=
  match removeFirstUser r.users targetUser with
  | none => (r, [])
  | some users' => Room.onUserRemoved { r with users := users' } targetUser.userId

/-- `Room.removeUserById`: remove the first member with the given id and
run the removal continuation; an unknown id leaves the room untouched. -/
def Room.removeUserById (r : Room) (userId : Nat) : Room × List RoomEvent :=
  match removeFirstById r.users userId with
  | none => (r, [])
  | some users' => Room.onUserRemoved { r with users := users' } userId

/-! ## Service gateway reads (`src/src/user/user.ts`) -/

/-- Outcome of one superagent HTTP request: a response carrying a status
code and a decoded body, or a thrown request error. -/
inductive HttpResult (α : Type) where
  | ok (status : Nat) (body : α)
  | err
  deriving DecidableEq, Repr

/-- Result of a gateway read: the returned value, whether the user service
was actually contacted, and whether `UserSvcPing.checkNow()` was
triggered. -/
structure GatewayResult (α : Type) where
  value : Option α
  contacted : Bool
  checkNow : Bool
  deriving DecidableEq, Repr

/-- `User.get(userId)`: cache lookup first; on a miss, short-circuit to
null when `UserSvcPing.isAlive()` is false, otherwise issue the HTTP GET
(status 200 yields the decoded user, anything else yields null, a thrown
request error yields null and triggers `checkNow`). `cached` is what
`userCache.get(userId)` returns, `resp` what the HTTP request would
produce. -/
def User.get (cached : Option User) (alive : Bool) (resp : HttpResult User) :
    GatewayResult User :=
  match cached with
  | some session => { value := some session, contacted := false, checkNow := false }
  | none =>
    if alive = false then { value := none, contacted := false, checkNow := false }
    else
      match resp with
      | HttpResult.ok status body =>
        if status = 200 then { value := some body, contacted := true, checkNow := false }
        else { value := none, contacted := true, checkNow := false }
      | HttpResult.err => { value := none, contacted := true, checkNow := true }

/-- `User.getByName(userName)`: no cache; short-circuit to null when
`UserSvcPing.isAlive()` is false, otherwise issue the HTTP GET with the
same outcome handling as `User.get`. -/
def User.getByName (alive : Bool) (resp : HttpResult User) : GatewayResult User :=
  if alive = false then { value := none, contacted := false, checkNow := false }
  else
    match resp with
    | HttpResult.ok status body =>
      if status = 200 then { value := some body, contacted := true, checkNow := false }
      else { value := none, contacted := true, checkNow := false }
    | HttpResult.err => { value := none, contacted := true, checkNow := true }

/-- The body of a 200 reply to `POST /users/check`. -/
structure CheckBody where
  userId : Nat
  deriving DecidableEq, Repr

/-- Result of `UserManager.validateCredentials`: the user id (0 = failure)
and whether `UserSvcPing.checkNow()` was triggered. -/
structure ValidateResult where
  userId : Nat
  checkNow : Bool
  deriving DecidableEq, Repr

/-- `UserManager.validateCredentials`: `res.status === 200 ? res.body.userId : 0`;
a thrown request error yields 0 and triggers `checkNow`. -/
def UserManager.validateCredentials (resp : HttpResult CheckBody) : ValidateResult :=
  match resp with
  | HttpResult.ok status body =>
    if status = 200 then { userId := body.userId, checkNow := false }
    else { userId := 0, checkNow := false }
  | HttpResult.err => { userId := 0, checkNow := true }

/-! ## Sessions, channels and the host-proxied packet handlers -/

/-- The fields of `UserSession` that `user.ts` reads (usersession.ts is
not under src/): the user id, the current room id and the channel
coordinates. -/
structure UserSession where
  userId : Nat
  currentRoomId : Nat
  currentChannelIndex : Nat
  currentChannelServerIndex : Nat
  deriving DecidableEq, Repr

/-- Modelled from the spec: `UserSession.isInRoom` (usersession.ts is not
under src/); the spec states `currentRoomId (0 = none)`, so a session is
in a room exactly when its `currentRoomId` is nonzero. -/
def UserSession.isInRoom (s : UserSession) : Bool :=
  s.currentRoomId != 0

/-- The settings record of the room used by `user.ts` (`currentRoom.settings.roomName`). -/
structure RoomSettings where
  roomName : String
  deriving DecidableEq, Repr

/-- Modelled from the spec: the shape of the `Room` that the `user.ts`
handlers read (room/room.ts is not under src/): numeric id, a settings
record carrying the room name, the host user, and the ordered member
list. -/
structure GameRoom where
  id : Nat
  settings : RoomSettings
  host : User
  users : List User
  deriving DecidableEq, Repr

/-- Modelled from the spec: a channel holds a map roomId → Room
(channel.ts is not under src/); `getRoomById` is the lookup. -/
structure HostChannel where
  rooms : Nat → Option GameRoom

/-- The environment the host-packet handlers read: the session registry,
the channel tree and the per-user item lists served by the inventory
service. -/
structure HostEnv where
  /-- `UserSession.get(userId)` -/
  sessions : Nat → Option UserSession
  /-- `ChannelManager.getChannel(channelIndex, channelServerIndex)` -/
  channels : Nat → Nat → Option HostChannel
  /-- the items of `UserInventory.getInventory(userId)` -/
  items : Nat → List Nat

/-- `UserManager.getSessionCurRoom`: resolve the session's channel, then
the room by `currentRoomId`; null at either step is null overall. -/
def UserManager.getSessionCurRoom (env : HostEnv) (session : UserSession) :
    Option GameRoom :=
  match env.channels session.currentChannelIndex session.currentChannelServerIndex with
  | none => none
  | some channel =>
    match channel.rooms session.currentRoomId with
    | none => none
    | some currentRoom => some currentRoom

/-- Observable effects of the host-packet handlers: gateway inventory
fetches and frames written to the requester's connection. -/
inductive HostEvent where
  /-- `UserInventory.getInventory(userId)` was requested from the gateway. -/
  | fetchInventory (userId : Nat)
  /-- `OutHostPacket.setInventory(targetUserId, items)` was written to
  connection owner `recipientId`. -/
  | sendSetInventory (recipientId : Nat) (targetUserId : Nat) (items : List Nat)
  /-- the target's loadout was requested from the gateway. -/
  | fetchLoadout (userId : Nat)
  /-- `OutHostPacket.setLoadout(targetUserId)` was written to connection
  owner `recipientId`. -/
  | sendSetLoadout (recipientId : Nat) (targetUserId : Nat)
  /-- the target's buy menu was requested from the gateway. -/
  | fetchBuyMenu (userId : Nat)
  /-- `OutHostPacket.setBuyMenu(targetUserId)` was written to connection
  owner `recipientId`. -/
  | sendSetBuyMenu (recipientId : Nat) (targetUserId : Nat)
  deriving DecidableEq, Repr

/-- `UserManager.sendUserInventoryTo(hostUserId, hostConn, targetUserId)`:
fetches `UserInventory.getInventory(hostUserId)` — note: the inventory of
`hostUserId`, the first argument — and writes
`OutHostPacket.setInventory(targetUserId, inventory.items)` on the host
connection. -/
def UserManager.sendUserInventoryTo (env : HostEnv) (hostUserId : Nat)
    (hostConnOwner : Nat) (targetUserId : Nat) : List HostEvent :=
  [HostEvent.fetchInventory hostUserId,
   HostEvent.sendSetInventory hostConnOwner targetUserId (env.items hostUserId)]

/-- `UserManager.sendUserLoadoutTo(hostConn, targetUserId)`. Modelled from
the spec for the fetch: `OutHostPacket.setLoadout(targetUserId)`
(packets/out/host is not under src/) reads the target's loadout through
the gateway before the frame is written on the host connection. -/
def UserManager.sendUserLoadoutTo (hostConnOwner : Nat) (targetUserId : Nat) :
    List HostEvent :=
  [HostEvent.fetchLoadout targetUserId,
   HostEvent.sendSetLoadout hostConnOwner targetUserId]

/-- `UserManager.sendUserBuyMenuTo(hostConn, targetUserId)`. Modelled from
the spec for the fetch: `OutHostPacket.setBuyMenu(targetUserId)`
(packets/out/host is not under src/) reads the target's buy menu through
the gateway before the frame is written on the host connection. -/
def UserManager.sendUserBuyMenuTo (hostConnOwner : Nat) (targetUserId : Nat) :
    List HostEvent :=
  [HostEvent.fetchBuyMenu targetUserId,
   HostEvent.sendSetBuyMenu hostConnOwner targetUserId]

/-- Outcome of one host-packet handler: a normal return carrying the
handler's boolean and the emitted events, or a thrown `TypeError` (the
handlers' "room not found" branch reads `currentRoom.id` on `null` while
building its error log, so that branch throws instead of reaching its
`return false`), carrying the events emitted before the throw. -/
inductive HostResult where
  | ret (success : Bool) (events : List HostEvent)
  | typeError (events : List HostEvent)
  deriving DecidableEq, Repr

/-- The events emitted by a handler run, whether it returned or threw. -/
def HostResult.events : HostResult → List HostEvent
  | HostResult.ret _ evs => evs
  | HostResult.typeError evs => evs

/-- Did the handler return normally with `true`? -/
def HostResult.isSuccess : HostResult → Bool
  | HostResult.ret true _ => true
  | _ => false

/-- `UserManager.onHostSetUserInventory`: guard chain (requester session,
`isInRoom`, target session, room lookup, host check against the connection
owner id), then relay via `sendUserInventoryTo(requesterSession.userId, conn,
targetSession.userId)`. `requesterId` is `userConn.getOwner()`,
`packetUserId` the user id decoded from the packet. In the room-lookup-null
branch the source's `console.error` call reads `currentRoom.id` on `null`
and throws a TypeError before its `return false`. -/
def UserManager.onHostSetUserInventory (env : HostEnv) (requesterId : Nat)
    (packetUserId : Nat) : HostResult :=
  match env.sessions requesterId with
  | none => HostResult.ret false []
  | some requesterSession =>
    if requesterSession.isInRoom = false then HostResult.ret false []
    else
      match env.sessions packetUserId with
      | none => HostResult.ret false []
      | some targetSession =>
        match UserManager.getSessionCurRoom env requesterSession with
        | none => HostResult.typeError []
        | some currentRoom =>
          if currentRoom.host.userId != requesterId then HostResult.ret false []
          else
            HostResult.ret true (UserManager.sendUserInventoryTo env
              requesterSession.userId requesterId targetSession.userId)

/-- `UserManager.onHostSetUserLoadout`: same guard chain (including the
throwing room-lookup-null branch), with the host check comparing against
`requesterSession.userId`, then relay via
`sendUserLoadoutTo(sourceConn, targetSession.userId)`. -/
def UserManager.onHostSetUserLoadout (env : HostEnv) (requesterId : Nat)
    (packetUserId : Nat) : HostResult :=
  match env.sessions requesterId with
  | none => HostResult.ret false []
  | some requesterSession =>
    if requesterSession.isInRoom = false then HostResult.ret false []
    else
      match env.sessions packetUserId with
      | none => HostResult.ret false []
      | some targetSession =>
        match UserManager.getSessionCurRoom env requesterSession with
        | none => HostResult.typeError []
        | some currentRoom =>
          if currentRoom.host.userId != requesterSession.userId then HostResult.ret false []
          else
            HostResult.ret true (UserManager.sendUserLoadoutTo requesterId
              targetSession.userId)

/-- `UserManager.onHostSetUserBuyMenu`: same guard chain (including the
throwing room-lookup-null branch), with the host check comparing against
the connection owner id, then relay via
`sendUserBuyMenuTo(sourceConn, targetSession.userId)`. -/
def UserManager.onHostSetUserBuyMenu (env : HostEnv) (requesterId : Nat)
    (packetUserId : Nat) : HostResult :=
  match env.sessions requesterId with
  | none => HostResult.ret false []
  | some requesterSession =>
    if requesterSession.isInRoom = false then HostResult.ret false []
    else
      match env.sessions packetUserId with
      | none => HostResult.ret false []
      | some targetSession =>
        match UserManager.getSessionCurRoom env requesterSession with
        | none => HostResult.typeError []
        | some currentRoom =>
          if currentRoom.host.userId != requesterId then HostResult.ret false []
          else
            HostResult.ret true (UserManager.sendUserBuyMenuTo requesterId
              targetSession.userId)

/-! ## The login path (`UserManager.onLoginPacket` and `sendInventory`) -/

/-- The 8 fixed cosmetic slots returned by `UserInventory.getCosmetics`. -/
structure Cosmetics where
  ctItem : Nat
  terItem : Nat
  headItem : Nat
  gloveItem : Nat
  backItem : Nat
  stepsItem : Nat
  cardItem : Nat
  sprayItem : Nat
  deriving DecidableEq, Repr

/-- The reply body of `UserInventory.getInventory`: the owned items. -/
structure Inventory where
  items : List Nat
  deriving DecidableEq, Repr

/-- The environment the login handler reads: credential validation, the
user snapshot read and the four inventory projections (loadouts and buy
menu are opaque payloads, modelled by a numeric handle). -/
structure LoginEnv where
  /-- result of `UserManager.validateCredentials(username, password)` -/
  validate : String → String → Nat
  /-- `User.get(userId)` -/
  getUser : Nat → Option User
  /-- `UserInventory.getInventory(userId)` -/
  getInventory : Nat → Option Inventory
  /-- `UserInventory.getCosmetics(userId)` -/
  getCosmetics : Nat → Option Cosmetics
  /-- `UserInventory.getAllLoadouts(userId)` -/
  getAllLoadouts : Nat → Option Nat
  /-- `UserInventory.getBuyMenu(userId)` -/
  getBuyMenu : Nat → Option Nat

/-- One frame written to the logging-in client's connection. -/
inductive LoginMsg where
  | userStart (userId : Nat) (userName : String) (playerName : String) (holepunchPort : Nat)
  | userInfoFullUpdate (userId : Nat)
  | inventoryItems (items : List Nat)
  /-- the hard-coded unlock byte blob sent via `conn.sendBuffer`. -/
  | unlockBlob
  | favSetCosmetics (c : Cosmetics)
  | favSetLoadout (l : Nat)
  | optSetBuyMenu (b : Nat)
  | channelList
  deriving DecidableEq, Repr

/-- Modelled from the spec: `UserSession.create(username, password)`
(usersession.ts is not under src/) requires a successful
`validateCredentials`; it yields a fresh session for the validated user id
(not yet in any room), or null when validation returns 0. -/
def UserSession.create (env : LoginEnv) (username password : String) :
    Option UserSession :=
  let uid := env.validate username password
  if uid = 0 then none
  else some { userId := uid, currentRoomId := 0, currentChannelIndex := 0,
              currentChannelServerIndex := 0 }

/-- `UserManager.sendUserInfoTo`: writes `OutUserStartPacket`
synchronously, then suspends on `await OutUserInfoPacket.fullUserUpdate`
(a gateway read) and writes the `UserInfo` full update only when that
resolves. Returned as (frames written synchronously, frames written by
the resumed continuation). -/
def UserManager.sendUserInfoTo (userId : Nat) (userName playerName : String)
    (holepunchPort : Nat) : List LoginMsg × List LoginMsg :=
  ([LoginMsg.userStart userId userName playerName holepunchPort],
   [LoginMsg.userInfoFullUpdate userId])

/-- `UserManager.sendInventory`: suspends immediately on the
`Promise.all` of the four projection fetches (so it writes nothing
synchronously); when they resolve, if any is null it sends nothing,
otherwise its resumed continuation writes items, the unlock blob,
cosmetics, loadouts and the buy menu, contiguously and in that order. -/
def UserManager.sendInventory (env : LoginEnv) (userId : Nat) : List LoginMsg :=
  match env.getInventory userId, env.getCosmetics userId,
        env.getAllLoadouts userId, env.getBuyMenu userId with
  | some inventory, some cosmetics, some loadouts, some buyMenu =>
    [LoginMsg.inventoryItems inventory.items,
     LoginMsg.unlockBlob,
     LoginMsg.favSetCosmetics cosmetics,
     LoginMsg.favSetLoadout loadouts,
     LoginMsg.optSetBuyMenu buyMenu]
  | _, _, _, _ => []

/-- `UserManager.onLoginPacket` under the event-loop semantics of the
source: `UserSession.create` and `User.get` are awaited, but
`sendUserInfoTo` and `sendInventory` are NOT awaited — each runs
synchronously up to its first gateway `await` and its remaining frames
are written by a later microtask — while `sendChannelListTo` runs in the
same synchronous continuation (modelled from the spec: channel-list
enumeration is in-memory and gateway calls are the only suspension
points; channelmanager.ts is not under src/). The trace is therefore
`UserStart`, then `ChannelList`, then the two suspended strands — the
`UserInfo` full update and the contiguous inventory block — in an order
decided by which gateway read resolves first (`userInfoFirst`). -/
def UserManager.onLoginPacket (env : LoginEnv) (userInfoFirst : Bool)
    (username password : String) (holepunchPort : Nat) : Bool × List LoginMsg :=
  match UserSession.create env username password with
  | none => (false, [])
  | some session =>
    match env.getUser session.userId with
    | none => (false, [])
    | some user =>
      let info := UserManager.sendUserInfoTo session.userId user.userName
        user.playerName holepunchPort
      let inv := UserManager.sendInventory env session.userId
      (true,
        info.1 ++ [LoginMsg.channelList] ++
          (if userInfoFirst then info.2 ++ inv else inv ++ info.2))

/-! ## Concrete fixtures -/

/-- A concrete user with the given id and name, for concrete evaluations. -/
def mkUser (uid : Nat) (name : String) : User :=
  { userId := uid, userName := name, playerName := name, level := 1, avatar := 0,
    curExp := 0, maxExp := 100, rank := 0, vipLevel := 0, wins := 0, kills := 0,
    deaths := 0, assists := 0 }

def alice : User := mkUser 1 "alice"

def bobUser : User := mkUser 2 "bob"

def carlUser : User := mkUser 3 "carl"

def daveUser : User := mkUser 4 "dave"

/-- A three-member room: alice created it (host), bob and carl joined. -/
def roomHAB : Room :=
  ((Room.construct 5 alice 0 {}).addUser bobUser).addUser carlUser

/-- A one-member room: alice alone. -/
def roomSolo : Room :=
  Room.construct 6 alice 0 {}

/-! ## Helper lemmas on the removal loop -/

theorem removeFirstUser_length {users users' : List User} {target : User}
    (h : removeFirstUser users target = some users') :
    users'.length + 1 = users.length := by
  induction users generalizing users' with
  | nil => simp [removeFirstUser] at h
  | cons u rest ih =>
    rw [removeFirstUser] at h
    by_cases hu : u = target
    · simp [hu] at h
      subst h
      simp
    · simp [hu, Option.map_eq_some'] at h
      obtain ⟨l', hl', rfl⟩ := h
      have := ih hl'
      simp
      omega

theorem removeFirstById_length {users users' : List User} {uid : Nat}
    (h : removeFirstById users uid = some users') :
    users'.length + 1 = users.length := by
  induction users generalizing users' with
  | nil => simp [removeFirstById] at h
  | cons u rest ih =>
    rw [removeFirstById] at h
    by_cases hu : u.userId = uid
    · simp [hu] at h
      subst h
      simp
    · simp [hu, Option.map_eq_some'] at h
      obtain ⟨l', hl', rfl⟩ := h
      have := ih hl'
      simp
      omega

theorem removeFirstUser_eq_none {users : List User} {target : User}
    (h : target ∉ users) : removeFirstUser users target = none := by
  induction users with
  | nil => rfl
  | cons u rest ih =>
    simp only [List.mem_cons, not_or] at h
    rw [removeFirstUser, if_neg (fun he => h.1 he.symm), ih h.2]
    rfl

theorem removeFirstById_eq_none {users : List User} {uid : Nat}
    (h : ∀ u ∈ users, u.userId ≠ uid) : removeFirstById users uid = none := by
  induction users with
  | nil => rfl
  | cons u rest ih =>
    rw [removeFirstById, if_neg (h u (List.mem_cons_self u rest)),
      ih fun v hv => h v (List.mem_cons_of_mem u hv)]
    rfl

/-- `onUserRemoved` never changes the member list or the capacity: it only
re-elects the host and emits events. -/
theorem onUserRemoved_users_maxPlayers (r : Room) (uid : Nat) :
    (r.onUserRemoved uid).1.users = r.users ∧
    (r.onUserRemoved uid).1.maxPlayers = r.maxPlayers := by
  cases hu : r.users with
  | nil =>
    simp [Room.onUserRemoved, hu]
  | cons a l =>
    simp [Room.onUserRemoved, Room.findAndUpdateNewHost, Room.updateHost, hu]

theorem addUser_users (r : Room) (u : User) : (r.addUser u).users = r.users ++ [u] :=
  rfl

theorem addUser_maxPlayers (r : Room) (u : User) : (r.addUser u).maxPlayers = r.maxPlayers :=
  rfl

/-! ## Claim C6 — room slot bound -/

/-- The invariant of the claim: `0 ≤ users.length ≤ maxPlayers`. -/
def Room.slotInvariant (r : Room) : Prop :=
  0 ≤ r.users.length ∧ (r.users.length : Int) ≤ r.maxPlayers

instance (r : Room) : Decidable r.slotInvariant := by
  unfold Room.slotInvariant
  infer_instance

/-- Claim C6 (confirmed): `0 ≤ users.length ≤ maxPlayers` holds after
construction, after `addUser` under its precondition `hasFreeSlots()`, and
after `removeUser`/`removeUserById`. -/
theorem room_slot_invariant_ops :
    (∀ (roomId : Nat) (host : User) (parentChannel : Nat) (options : IRoomOptions),
      (Room.construct roomId host parentChannel options).slotInvariant) ∧
    (∀ (r : Room) (u : User), r.hasFreeSlots = true → r.slotInvariant →
      (r.addUser u).slotInvariant) ∧
    (∀ (r : Room) (u : User), r.slotInvariant → (r.removeUser u).1.slotInvariant) ∧
    (∀ (r : Room) (uid : Nat), r.slotInvariant → (r.removeUserById uid).1.slotInvariant) := by
  refine ⟨?_, ?_, ?_, ?_⟩
  · intro roomId host parentChannel options
    unfold Room.slotInvariant Room.construct
    by_cases hb : numTruthy options.enableBots <;> simp [hb]
  · intro r u hfree hinv
    unfold Room.hasFreeSlots Room.getFreeSlots at hfree
    simp only [bne_iff_ne, ne_eq] at hfree
    unfold Room.slotInvariant
    rw [addUser_users, addUser_maxPlayers]
    simp only [List.length_append, List.length_cons, List.length_nil]
    refine ⟨by omega, ?_⟩
    split at hfree
    · push_cast
      omega
    · exact absurd rfl hfree
  · intro r u hinv
    unfold Room.removeUser
    cases h : removeFirstUser r.users u with
    | none => exact hinv
    | some users' =>
      have hlen := removeFirstUser_length h
      have hkeep := onUserRemoved_users_maxPlayers { r with users := users' } u.userId
      unfold Room.slotInvariant at *
      rw [hkeep.1, hkeep.2]
      simp only at *
      constructor
      · omega
      · have := hinv.2
        push_cast at *
        omega
  · intro r uid hinv
    unfold Room.removeUserById
    cases h : removeFirstById r.users uid with
    | none => exact hinv
    | some users' =>
      have hlen := removeFirstById_length h
      have hkeep := onUserRemoved_users_maxPlayers { r with users := users' } uid
      unfold Room.slotInvariant at *
      rw [hkeep.1, hkeep.2]
      simp only at *
      constructor
      · omega
      · have := hinv.2
        push_cast at *
        omega

/-- Witness for C6 at concrete rooms. -/
theorem room_slot_invariant_ops_witness :
    (Room.construct 11 alice 0 {}).slotInvariant ∧
    (roomHAB.addUser daveUser).slotInvariant ∧
    (roomHAB.removeUser bobUser).1.slotInvariant ∧
    (roomHAB.removeUserById 3).1.slotInvariant :=
  ⟨room_slot_invariant_ops.1 11 alice 0 {},
   room_slot_invariant_ops.2.1 roomHAB daveUser (by decide) (by decide),
   room_slot_invariant_ops.2.2.1 roomHAB bobUser (by decide),
   room_slot_invariant_ops.2.2.2 roomHAB 3 (by decide)⟩

/-! ## Claim C4 — room option defaulting -/

/-- Room options specifying `forceCamera: 0`. -/
def optionsFC0 : IRoomOptions := { forceCamera := some 0 }

/-- Counterexample to C4 as stated: the option `forceCamera` is specified
with the value 0, yet the constructed room applies the default 1 instead
of the given value (the constructor tests JS truthiness, not presence). -/
theorem room_options_specified_zero_counterexample :
    optionsFC0.forceCamera = some 0 ∧
    (Room.construct 7 alice 0 optionsFC0).forceCamera = 1 ∧
    (Room.construct 7 alice 0 optionsFC0).forceCamera ≠ 0 :=
  ⟨rfl, rfl, by decide⟩

/-- The defaulting rule the constructor actually implements for numeric
options: absent and zero take the default, a nonzero given value is
applied. -/
def TruthyApplied (o : Option Int) (dflt result : Int) : Prop :=
  (o = none → result = dflt) ∧ (o = some 0 → result = dflt) ∧
  (∀ v : Int, o = some v → v ≠ 0 → result = v)

theorem numOrDefault_truthyApplied (o : Option Int) (dflt : Int) :
    TruthyApplied o dflt (numOrDefault o dflt) := by
  refine ⟨?_, ?_, ?_⟩
  · rintro rfl; rfl
  · rintro rfl; rfl
  · rintro v rfl hv
    simp [numOrDefault, hv]

/-- Claim C4 (amended): each numeric option follows the truthy-or-default
rule with the listed defaults (so a specified zero falls back to the
default); `maxPlayers` is 16 exactly when `enableBots` is specified
nonzero and 32 otherwise; the room name defaults to `"Room #" + roomId`
when absent or empty and a non-empty given name is applied. -/
theorem room_options_amended (roomId : Nat) (host : User) (parentChannel : Nat)
    (options : IRoomOptions) :
    TruthyApplied options.gameModeId 0 (Room.construct roomId host parentChannel options).gameModeId ∧
    TruthyApplied options.mapId 1 (Room.construct roomId host parentChannel options).mapId ∧
    TruthyApplied options.winLimit 10 (Room.construct roomId host parentChannel options).winLimit ∧
    TruthyApplied options.killLimit 150 (Room.construct roomId host parentChannel options).killLimit ∧
    TruthyApplied options.startMoney 16000 (Room.construct roomId host parentChannel options).startMoney ∧
    TruthyApplied options.forceCamera 1 (Room.construct roomId host parentChannel options).forceCamera ∧
    TruthyApplied options.nextMapEnabled 0 (Room.construct roomId host parentChannel options).nextMapEnabled ∧
    TruthyApplied options.changeTeams 0 (Room.construct roomId host parentChannel options).changeTeams ∧
    TruthyApplied options.enableBots 0 (Room.construct roomId host parentChannel options).enableBots ∧
    TruthyApplied options.difficulty 0 (Room.construct roomId host parentChannel options).difficulty ∧
    TruthyApplied options.respawnTime 3 (Room.construct roomId host parentChannel options).respawnTime ∧
    TruthyApplied options.teamBalance 0 (Room.construct roomId host parentChannel options).teamBalance ∧
    TruthyApplied options.weaponRestrictions 0 (Room.construct roomId host parentChannel options).weaponRestrictions ∧
    TruthyApplied options.hltvEnabled 0 (Room.construct roomId host parentChannel options).hltvEnabled ∧
    ((options.enableBots = none ∨ options.enableBots = some 0) →
      (Room.construct roomId host parentChannel options).maxPlayers = 32) ∧
    (∀ v : Int, options.enableBots = some v → v ≠ 0 →
      (Room.construct roomId host parentChannel options).maxPlayers = 16) ∧
    (options.roomName = none →
      (Room.construct roomId host parentChannel options).roomName = "Room #" ++ toString roomId) ∧
    (options.roomName = some "" →
      (Room.construct roomId host parentChannel options).roomName = "Room #" ++ toString roomId) ∧
    (∀ s : String, options.roomName = some s → s ≠ "" →
      (Room.construct roomId host parentChannel options).roomName = s) := by
  refine ⟨numOrDefault_truthyApplied _ _, numOrDefault_truthyApplied _ _,
    numOrDefault_truthyApplied _ _, numOrDefault_truthyApplied _ _,
    numOrDefault_truthyApplied _ _, numOrDefault_truthyApplied _ _,
    numOrDefault_truthyApplied _ _, numOrDefault_truthyApplied _ _,
    numOrDefault_truthyApplied _ _, numOrDefault_truthyApplied _ _,
    numOrDefault_truthyApplied _ _, numOrDefault_truthyApplied _ _,
    numOrDefault_truthyApplied _ _, numOrDefault_truthyApplied _ _,
    ?_, ?_, ?_, ?_, ?_⟩
  · rintro (hb | hb) <;> simp [Room.construct, numTruthy, hb]
  · rintro v hb hv
    simp [Room.construct, numTruthy, hb, hv]
  · rintro hn
    simp [Room.construct, strOrDefault, hn]
  · rintro hn
    simp [Room.construct, strOrDefault, hn]
  · rintro s hn hs
    simp [Room.construct, strOrDefault, hn, hs]

/-- Room options with a mix of truthy, falsy and absent fields. -/
def optionsMixed : IRoomOptions :=
  { roomName := some "dust", gameModeId := some 5, mapId := some 0 }

/-- Witness for C4 at a concrete mixed options record. -/
theorem room_options_amended_witness :
    (Room.construct 9 alice 0 optionsMixed).gameModeId = 5 ∧
    (Room.construct 9 alice 0 optionsMixed).mapId = 1 ∧
    (Room.construct 9 alice 0 optionsMixed).winLimit = 10 ∧
    (Room.construct 9 alice 0 optionsMixed).maxPlayers = 32 ∧
    (Room.construct 9 alice 0 optionsMixed).roomName = "dust" := by
  obtain ⟨h1, h2, h3, _, _, _, _, _, _, _, _, _, _, _, h15, _, _, _, h19⟩ :=
    room_options_amended 9 alice 0 optionsMixed
  exact ⟨h1.2.2 5 rfl (by decide), h2.2.1 rfl, h3.1 rfl, h15 (Or.inl rfl),
    h19 "dust" rfl (by decide)⟩

/-! ## Claims C5, C7, C10 — removal behaviour -/

theorem removeUser_eq_of_removeFirst (r : Room) (target : User) (users' : List User)
    (h : removeFirstUser r.users target = some users') :
    r.removeUser target = Room.onUserRemoved { r with users := users' } target.userId := by
  unfold Room.removeUser
  rw [h]

theorem removeUserById_eq_of_removeFirst (r : Room) (uid : Nat) (users' : List User)
    (h : removeFirstById r.users uid = some users') :
    r.removeUserById uid = Room.onUserRemoved { r with users := users' } uid := by
  unfold Room.removeUserById
  rw [h]

/-- Evaluation of `onUserRemoved` on an empty member list. -/
theorem onUserRemoved_nil (r : Room) (uid : Nat) (h : r.users = []) :
    r.onUserRemoved uid = (r, [RoomEvent.emptyRoomCallback r.id r.parentChannel]) := by
  simp [Room.onUserRemoved, h]

/-- Evaluation of `onUserRemoved` on a non-empty member list: host
re-election, `setHost` fan-out, then `playerLeave` fan-out. -/
theorem onUserRemoved_cons (r : Room) (uid : Nat) (hd : User) (rest : List User)
    (h : r.users = hd :: rest) :
    r.onUserRemoved uid =
      ({ r with host := hd },
       ((hd :: rest).map fun u => RoomEvent.setHost u.userId hd.userId) ++
         ((hd :: rest).map fun u => RoomEvent.playerLeave u.userId uid)) := by
  simp [Room.onUserRemoved, Room.findAndUpdateNewHost, Room.updateHost,
    Room.sendRemovedUser, h]

/-- Counterexample to C5 as stated: bob is not the host of `roomHAB`, yet
his removal still broadcasts `setHost` to the remaining members. -/
theorem setHost_broadcast_on_nonhost_leave_counterexample :
    roomHAB.host = alice ∧ bobUser ≠ alice ∧
    RoomEvent.setHost carlUser.userId alice.userId ∈ (roomHAB.removeUser bobUser).2 :=
  ⟨rfl, by decide, by decide⟩

/-- Claim C5 (amended): every removal that leaves the room non-empty
re-elects the member at index 0 of the remaining ordered list as host and
broadcasts `setHost` to all remaining members — whether or not the removed
user was the host; when the removed user was not the host and the host sat
at index 0 (as it always does after construction and prior removals), the
host value is unchanged although the broadcast is still sent. -/
theorem host_election_amended (r : Room) (target hd : User) (rest : List User)
    (h : removeFirstUser r.users target = some (hd :: rest)) :
    (r.removeUser target).1.host = hd ∧
    (∀ u ∈ hd :: rest, RoomEvent.setHost u.userId hd.userId ∈ (r.removeUser target).2) ∧
    (r.users.head? = some r.host → target ≠ r.host →
      (r.removeUser target).1.host = r.host) := by
  have hrem := removeUser_eq_of_removeFirst r target (hd :: rest) h
  have hval := onUserRemoved_cons { r with users := hd :: rest } target.userId hd rest rfl
  refine ⟨?_, ?_, ?_⟩
  · rw [hrem, hval]
  · intro u hu
    rw [hrem, hval]
    exact List.mem_append_left _ (List.mem_map_of_mem _ hu)
  · intro hh hth
    rw [hrem, hval]
    cases hu : r.users with
    | nil =>
      rw [hu] at h
      simp [removeFirstUser] at h
    | cons a tail =>
      rw [hu] at hh h
      have ha : a = r.host := by simpa using hh
      rw [removeFirstUser, if_neg (fun he => hth (he.symm.trans ha))] at h
      simp only [Option.map_eq_some'] at h
      obtain ⟨l', _, hcons⟩ := h
      injection hcons with h1 _
      show hd = r.host
      rw [← h1, ha]

/-- Witness for C5: the host alice leaves `roomHAB`; bob, at index 0 of
the remaining list, becomes host and carl is told via `setHost`. -/
theorem host_election_amended_witness :
    (roomHAB.removeUser alice).1.host = bobUser ∧
    RoomEvent.setHost carlUser.userId bobUser.userId ∈ (roomHAB.removeUser alice).2 := by
  have h := host_election_amended roomHAB alice bobUser [carlUser] (by decide)
  exact ⟨h.1, h.2.1 carlUser (by decide)⟩

/-- Claim C7 (confirmed): removing the last member invokes the empty-room
callback with the room and its parent channel and sends nothing else;
removing a member from a room that stays non-empty broadcasts
`playerLeave` with the removed user's id to every remaining member and
does not invoke the callback. -/
theorem remove_last_member_callback (r : Room) (target : User) :
    (removeFirstUser r.users target = some [] →
      (r.removeUser target).2 = [RoomEvent.emptyRoomCallback r.id r.parentChannel]) ∧
    (∀ hd rest, removeFirstUser r.users target = some (hd :: rest) →
      (∀ e ∈ (r.removeUser target).2,
        e ≠ RoomEvent.emptyRoomCallback r.id r.parentChannel) ∧
      ∀ u ∈ hd :: rest,
        RoomEvent.playerLeave u.userId target.userId ∈ (r.removeUser target).2) := by
  constructor
  · intro h
    rw [removeUser_eq_of_removeFirst r target [] h,
      onUserRemoved_nil { r with users := [] } target.userId rfl]
  · intro hd rest h
    rw [removeUser_eq_of_removeFirst r target (hd :: rest) h,
      onUserRemoved_cons { r with users := hd :: rest } target.userId hd rest rfl]
    constructor
    · intro e he
      rcases List.mem_append.mp he with hm | hm <;>
        · obtain ⟨u, _, rfl⟩ := List.mem_map.mp hm
          simp
    · intro u hu
      exact List.mem_append_right _ (List.mem_map_of_mem _ hu)

/-- Witness for C7: alice leaving `roomSolo` empties it and fires the
callback; bob leaving `roomHAB` sends `playerLeave` to carl. -/
theorem remove_last_member_callback_witness :
    (roomSolo.removeUser alice).2 = [RoomEvent.emptyRoomCallback 6 0] ∧
    RoomEvent.playerLeave carlUser.userId bobUser.userId ∈ (roomHAB.removeUser bobUser).2 := by
  constructor
  · exact (remove_last_member_callback roomSolo alice).1 (by decide)
  · exact ((remove_last_member_callback roomHAB bobUser).2 alice [carlUser]
      (by decide)).2 carlUser (by decide)

/-- Claim C10 (confirmed): `removeUser`/`removeUserById` on a non-member
leave the room record unchanged and produce no callback and no socket
write. -/
theorem remove_nonmember_noop (r : Room) :
    (∀ target : User, target ∉ r.users → r.removeUser target = (r, [])) ∧
    (∀ uid : Nat, (∀ u ∈ r.users, u.userId ≠ uid) → r.removeUserById uid = (r, [])) := by
  constructor
  · intro target h
    unfold Room.removeUser
    rw [removeFirstUser_eq_none h]
  · intro uid h
    unfold Room.removeUserById
    rw [removeFirstById_eq_none h]

/-- Witness for C10: dave is not in `roomHAB`, nor is any member with id
99; both removals are no-ops. -/
theorem remove_nonmember_noop_witness :
    roomHAB.removeUser daveUser = (roomHAB, []) ∧
    roomHAB.removeUserById 99 = (roomHAB, []) :=
  ⟨(remove_nonmember_noop roomHAB).1 daveUser (by decide),
   (remove_nonmember_noop roomHAB).2 99 (by decide)⟩

/-! ## Claim C8 — reads while the user service is down -/

/-- Counterexample to C8 as stated: the user service is known down
(`alive = false`), yet `User.get` returns the cached snapshot — not
absent — because the cache is consulted before `isAlive()`. -/
theorem user_get_cache_hit_when_down_counterexample :
    (User.get (some alice) false HttpResult.err).value = some alice ∧
    (User.get (some alice) false HttpResult.err).value ≠ none :=
  ⟨rfl, by decide⟩

/-- Claim C8 (amended): when the user service is known down, `User.get`
returns the cached snapshot when one is cached and absent otherwise — in
either case without contacting the service — and `User.getByName` always
returns absent without contacting the service. -/
theorem gateway_reads_service_down_amended (cached : Option User)
    (resp respByName : HttpResult User) :
    (User.get cached false resp).value = cached ∧
    (User.get cached false resp).contacted = false ∧
    (User.getByName false respByName).value = none ∧
    (User.getByName false respByName).contacted = false := by
  cases cached <;> simp [User.get, User.getByName]

/-! ## Claim C9 — credential validation outcomes -/

/-- Claim C9 (confirmed): `validateCredentials` returns the service's
userId on a 200 response without a liveness check, 0 on any non-200
response without a liveness check, and 0 with an immediate `checkNow()`
on a request error. -/
theorem validate_credentials_outcomes (resp : HttpResult CheckBody) :
    (∀ body, resp = HttpResult.ok 200 body →
      UserManager.validateCredentials resp = { userId := body.userId, checkNow := false }) ∧
    (∀ status body, resp = HttpResult.ok status body → status ≠ 200 →
      UserManager.validateCredentials resp = { userId := 0, checkNow := false }) ∧
    (resp = HttpResult.err →
      UserManager.validateCredentials resp = { userId := 0, checkNow := true }) := by
  refine ⟨?_, ?_, ?_⟩
  · rintro body rfl
    rfl
  · rintro status body rfl hs
    simp [UserManager.validateCredentials, hs]
  · rintro rfl
    rfl

/-- Witness for C9 at the three concrete response shapes. -/
theorem validate_credentials_outcomes_witness :
    UserManager.validateCredentials (HttpResult.ok 200 { userId := 42 }) =
      { userId := 42, checkNow := false } ∧
    UserManager.validateCredentials (HttpResult.ok 404 { userId := 42 }) =
      { userId := 0, checkNow := false } ∧
    UserManager.validateCredentials HttpResult.err =
      { userId := 0, checkNow := true } :=
  ⟨(validate_credentials_outcomes (HttpResult.ok 200 { userId := 42 })).1
      { userId := 42 } rfl,
   (validate_credentials_outcomes (HttpResult.ok 404 { userId := 42 })).2.1
      404 { userId := 42 } rfl (by decide),
   (validate_credentials_outcomes HttpResult.err).2.2 rfl⟩

/-! ## Claims C1, C2 — host-proxied packet handlers -/

def hostSession1 : UserSession :=
  { userId := 1, currentRoomId := 5, currentChannelIndex := 0,
    currentChannelServerIndex := 0 }

def targetSession2 : UserSession :=
  { userId := 2, currentRoomId := 5, currentChannelIndex := 0,
    currentChannelServerIndex := 0 }

/-- Room 5 with alice hosting and bob a member. -/
def gameRoomAB : GameRoom :=
  { id := 5, settings := { roomName := "lobby" }, host := alice,
    users := [alice, bobUser] }

/-- Room 5 with alice alone (bob is not a member). -/
def gameRoomSoloA : GameRoom :=
  { id := 5, settings := { roomName := "lobby" }, host := alice, users := [alice] }

/-- A concrete handler environment: users 1 and 2 have sessions pointing
at room 5 of channel (0,0); the inventory service holds items
`[100, 101]` for user 1 and `[200]` for user 2. -/
def mkHostEnv (room : GameRoom) : HostEnv :=
  { sessions := fun uid =>
      if uid = 1 then some hostSession1
      else if uid = 2 then some targetSession2
      else none
    channels := fun ci si =>
      if ci = 0 then
        if si = 0 then some { rooms := fun rid => if rid = 5 then some room else none }
        else none
      else none
    items := fun uid => if uid = 1 then [100, 101] else if uid = 2 then [200] else [] }

def envAB : HostEnv := mkHostEnv gameRoomAB

def envSoloA : HostEnv := mkHostEnv gameRoomSoloA

/-- Like `envAB`, but the channel tree resolves no channel, so the
sessions' room lookup returns null. -/
def envNoRoom : HostEnv := { envAB with channels := fun _ _ => none }

/-- Claim C1 (code bug, evaluated at the failing input): alice (id 1)
hosts room 5, bob (id 2) has a session and is even a room member; the
inventory service holds `[100, 101]` for alice and `[200]` for bob. The
fully authorized `Host.SetInventory` relay fetches ALICE's inventory —
the requester's — and delivers the items `[100, 101]` labelled with bob's
user id, not bob's items `[200]` as the claim (and the handler's own log
message) state. -/
theorem host_set_inventory_sends_requester_items :
    UserManager.onHostSetUserInventory envAB 1 2 =
      HostResult.ret true [HostEvent.fetchInventory 1,
                           HostEvent.sendSetInventory 1 2 [100, 101]] ∧
    envAB.items 2 = [200] ∧
    bobUser ∈ gameRoomAB.users ∧
    [(100 : Nat), 101] ≠ [200] :=
  ⟨rfl, rfl, by decide, by decide⟩

/-- Counterexample to C2 as stated: the requester has a session, is in
room 5 and is the room's host, and the target has a session — but the
target is NOT a member of the room; the handler still succeeds and the
gateway inventory fetch happens. -/
theorem host_fetch_nonmember_target_counterexample :
    (∀ u ∈ gameRoomSoloA.users, u.userId ≠ 2) ∧
    UserManager.onHostSetUserInventory envSoloA 1 2 =
      HostResult.ret true [HostEvent.fetchInventory 1,
                           HostEvent.sendSetInventory 1 2 [100, 101]] :=
  ⟨by decide, rfl⟩

/-- Is this event a gateway inventory-projection fetch? -/
def HostEvent.isFetch : HostEvent → Bool
  | HostEvent.fetchInventory _ => true
  | HostEvent.fetchLoadout _ => true
  | HostEvent.fetchBuyMenu _ => true
  | _ => false

/-- The authorization facts the handlers actually establish before any
gateway fetch: the requester's session exists and is in a room, the
target's session exists, the requester's room resolves, and the room's
host id equals `hostCmp` of the requester's session (the value each
handler compares against). Membership of the target in the room is not
among them. -/
def HostAuthPassed (env : HostEnv) (requesterId packetUserId : Nat)
    (hostCmp : UserSession → Nat) : Prop :=
  ∃ s, env.sessions requesterId = some s ∧ s.isInRoom = true ∧
    (∃ t, env.sessions packetUserId = some t) ∧
    ∃ room, UserManager.getSessionCurRoom env s = some room ∧
      room.host.userId = hostCmp s

/-- Exhaustive evaluation of `onHostSetUserInventory`: some guard failed
and the handler returned `false` with no events, or the room lookup came
back null and the handler threw (nothing emitted before the throw), or
every guard passed and the relay ran. -/
theorem onHostSetUserInventory_spec (env : HostEnv) (rid pid : Nat) :
    UserManager.onHostSetUserInventory env rid pid = HostResult.ret false [] ∨
    UserManager.onHostSetUserInventory env rid pid = HostResult.typeError [] ∨
    ∃ s t room, env.sessions rid = some s ∧ s.isInRoom = true ∧
      env.sessions pid = some t ∧
      UserManager.getSessionCurRoom env s = some room ∧
      room.host.userId = rid ∧
      UserManager.onHostSetUserInventory env rid pid =
        HostResult.ret true (UserManager.sendUserInventoryTo env s.userId rid t.userId) := by
  unfold UserManager.onHostSetUserInventory
  split
  · exact Or.inl rfl
  rename_i s hs
  split
  · exact Or.inl rfl
  rename_i hin
  split
  · exact Or.inl rfl
  rename_i t ht
  split
  · exact Or.inr (Or.inl rfl)
  rename_i room hroom
  split
  · exact Or.inl rfl
  rename_i hh
  exact Or.inr (Or.inr
    ⟨s, t, room, hs, by simpa using hin, ht, hroom, by simpa using hh, rfl⟩)

/-- Exhaustive evaluation of `onHostSetUserLoadout`; the host comparison
is against the requester session's user id. -/
theorem onHostSetUserLoadout_spec (env : HostEnv) (rid pid : Nat) :
    UserManager.onHostSetUserLoadout env rid pid = HostResult.ret false [] ∨
    UserManager.onHostSetUserLoadout env rid pid = HostResult.typeError [] ∨
    ∃ s t room, env.sessions rid = some s ∧ s.isInRoom = true ∧
      env.sessions pid = some t ∧
      UserManager.getSessionCurRoom env s = some room ∧
      room.host.userId = s.userId ∧
      UserManager.onHostSetUserLoadout env rid pid =
        HostResult.ret true (UserManager.sendUserLoadoutTo rid t.userId) := by
  unfold UserManager.onHostSetUserLoadout
  split
  · exact Or.inl rfl
  rename_i s hs
  split
  · exact Or.inl rfl
  rename_i hin
  split
  · exact Or.inl rfl
  rename_i t ht
  split
  · exact Or.inr (Or.inl rfl)
  rename_i room hroom
  split
  · exact Or.inl rfl
  rename_i hh
  exact Or.inr (Or.inr
    ⟨s, t, room, hs, by simpa using hin, ht, hroom, by simpa using hh, rfl⟩)

/-- Exhaustive evaluation of `onHostSetUserBuyMenu`. -/
theorem onHostSetUserBuyMenu_spec (env : HostEnv) (rid pid : Nat) :
    UserManager.onHostSetUserBuyMenu env rid pid = HostResult.ret false [] ∨
    UserManager.onHostSetUserBuyMenu env rid pid = HostResult.typeError [] ∨
    ∃ s t room, env.sessions rid = some s ∧ s.isInRoom = true ∧
      env.sessions pid = some t ∧
      UserManager.getSessionCurRoom env s = some room ∧
      room.host.userId = rid ∧
      UserManager.onHostSetUserBuyMenu env rid pid =
        HostResult.ret true (UserManager.sendUserBuyMenuTo rid t.userId) := by
  unfold UserManager.onHostSetUserBuyMenu
  split
  · exact Or.inl rfl
  rename_i s hs
  split
  · exact Or.inl rfl
  rename_i hin
  split
  · exact Or.inl rfl
  rename_i t ht
  split
  · exact Or.inr (Or.inl rfl)
  rename_i room hroom
  split
  · exact Or.inl rfl
  rename_i hh
  exact Or.inr (Or.inr
    ⟨s, t, room, hs, by simpa using hin, ht, hroom, by simpa using hh, rfl⟩)

/-- Claim C2 (amended): a gateway fetch (equivalently, handler success)
requires: requester session, requester in a room, target session, the
requester's room resolving, and the requester being the room's host
(compared against the connection owner id for SetInventory/SetBuyMenu
and against the requester session's user id for SetLoadout); membership
of the target in the room is NOT checked. When the session, in-room or
host check fails, the handler returns failure and emits nothing; when the
room lookup returns null, the handler throws a TypeError (its error log
reads the null room's id) instead of returning failure — still with no
fetch and nothing sent. In particular a non-host's Host packet never
triggers a gateway inventory fetch. -/
theorem host_packet_authorization_amended (env : HostEnv)
    (requesterId packetUserId : Nat) :
    (((UserManager.onHostSetUserInventory env requesterId packetUserId).events.any
        HostEvent.isFetch = true ∨
      (UserManager.onHostSetUserInventory env requesterId packetUserId).isSuccess = true) →
      HostAuthPassed env requesterId packetUserId fun _ => requesterId) ∧
    ((UserManager.onHostSetUserInventory env requesterId packetUserId).isSuccess = false →
      (UserManager.onHostSetUserInventory env requesterId packetUserId).events = []) ∧
    (∀ s t, env.sessions requesterId = some s → s.isInRoom = true →
      env.sessions packetUserId = some t →
      UserManager.getSessionCurRoom env s = none →
      UserManager.onHostSetUserInventory env requesterId packetUserId =
        HostResult.typeError []) ∧
    (((UserManager.onHostSetUserLoadout env requesterId packetUserId).events.any
        HostEvent.isFetch = true ∨
      (UserManager.onHostSetUserLoadout env requesterId packetUserId).isSuccess = true) →
      HostAuthPassed env requesterId packetUserId fun s => s.userId) ∧
    ((UserManager.onHostSetUserLoadout env requesterId packetUserId).isSuccess = false →
      (UserManager.onHostSetUserLoadout env requesterId packetUserId).events = []) ∧
    (∀ s t, env.sessions requesterId = some s → s.isInRoom = true →
      env.sessions packetUserId = some t →
      UserManager.getSessionCurRoom env s = none →
      UserManager.onHostSetUserLoadout env requesterId packetUserId =
        HostResult.typeError []) ∧
    (((UserManager.onHostSetUserBuyMenu env requesterId packetUserId).events.any
        HostEvent.isFetch = true ∨
      (UserManager.onHostSetUserBuyMenu env requesterId packetUserId).isSuccess = true) →
      HostAuthPassed env requesterId packetUserId fun _ => requesterId) ∧
    ((UserManager.onHostSetUserBuyMenu env requesterId packetUserId).isSuccess = false →
      (UserManager.onHostSetUserBuyMenu env requesterId packetUserId).events = []) ∧
    (∀ s t, env.sessions requesterId = some s → s.isInRoom = true →
      env.sessions packetUserId = some t →
      UserManager.getSessionCurRoom env s = none →
      UserManager.onHostSetUserBuyMenu env requesterId packetUserId =
        HostResult.typeError []) := by
  have hinv := onHostSetUserInventory_spec env requesterId packetUserId
  have hload := onHostSetUserLoadout_spec env requesterId packetUserId
  have hbuy := onHostSetUserBuyMenu_spec env requesterId packetUserId
  refine ⟨?_, ?_, ?_, ?_, ?_, ?_, ?_, ?_, ?_⟩
  · rcases hinv with h | h | ⟨s, t, room, hs, hin, ht, hroom, hh, heq⟩
    · rw [h]
      simp [HostResult.events, HostResult.isSuccess]
    · rw [h]
      simp [HostResult.events, HostResult.isSuccess]
    · rw [heq]
      intro _
      exact ⟨s, hs, hin, ⟨t, ht⟩, room, hroom, hh⟩
  · rcases hinv with h | h | ⟨s, t, room, hs, hin, ht, hroom, hh, heq⟩
    · rw [h]
      intro _
      rfl
    · rw [h]
      intro _
      rfl
    · rw [heq]
      simp [HostResult.isSuccess]
  · intro s t hs hin ht hroom
    simp [UserManager.onHostSetUserInventory, hs, hin, ht, hroom]
  · rcases hload with h | h | ⟨s, t, room, hs, hin, ht, hroom, hh, heq⟩
    · rw [h]
      simp [HostResult.events, HostResult.isSuccess]
    · rw [h]
      simp [HostResult.events, HostResult.isSuccess]
    · rw [heq]
      intro _
      exact ⟨s, hs, hin, ⟨t, ht⟩, room, hroom, hh⟩
  · rcases hload with h | h | ⟨s, t, room, hs, hin, ht, hroom, hh, heq⟩
    · rw [h]
      intro _
      rfl
    · rw [h]
      intro _
      rfl
    · rw [heq]
      simp [HostResult.isSuccess]
  · intro s t hs hin ht hroom
    simp [UserManager.onHostSetUserLoadout, hs, hin, ht, hroom]
  · rcases hbuy with h | h | ⟨s, t, room, hs, hin, ht, hroom, hh, heq⟩
    · rw [h]
      simp [HostResult.events, HostResult.isSuccess]
    · rw [h]
      simp [HostResult.events, HostResult.isSuccess]
    · rw [heq]
      intro _
      exact ⟨s, hs, hin, ⟨t, ht⟩, room, hroom, hh⟩
  · rcases hbuy with h | h | ⟨s, t, room, hs, hin, ht, hroom, hh, heq⟩
    · rw [h]
      intro _
      rfl
    · rw [h]
      intro _
      rfl
    · rw [heq]
      simp [HostResult.isSuccess]
  · intro s t hs hin ht hroom
    simp [UserManager.onHostSetUserBuyMenu, hs, hin, ht, hroom]

/-- Witness for C2: the authorized relay in `envAB` establishes all
checked conditions; a non-host requester (bob, id 2) gets his loadout
request dropped with no events; with the same sessions but no resolvable
room, the handler throws with nothing emitted. -/
theorem host_packet_authorization_amended_witness :
    HostAuthPassed envAB 1 2 (fun _ => (1 : Nat)) ∧
    (UserManager.onHostSetUserLoadout envAB 2 1).events = [] ∧
    UserManager.onHostSetUserInventory envNoRoom 1 2 = HostResult.typeError [] :=
  ⟨(host_packet_authorization_amended envAB 1 2).1 (Or.inr rfl),
   (host_packet_authorization_amended envAB 2 1).2.2.2.2.1 rfl,
   (host_packet_authorization_amended envNoRoom 1 2).2.2.1 hostSession1 targetSession2
     rfl rfl rfl rfl⟩

/-! ## Claim C3 — login send order -/

def cosmeticsA : Cosmetics :=
  { ctItem := 10, terItem := 11, headItem := 12, gloveItem := 13, backItem := 14,
    stepsItem := 15, cardItem := 16, sprayItem := 17 }

def loginUser : User := mkUser 42 "alice"

/-- A login environment in which user 42 validates and every projection
is served. -/
def envLoginOk : LoginEnv :=
  { validate := fun _ _ => 42
    getUser := fun uid => if uid = 42 then some loginUser else none
    getInventory := fun uid => if uid = 42 then some { items := [301, 302] } else none
    getCosmetics := fun uid => if uid = 42 then some cosmeticsA else none
    getAllLoadouts := fun uid => if uid = 42 then some 7 else none
    getBuyMenu := fun uid => if uid = 42 then some 9 else none }

/-- Claim C3 (code bug, evaluated at the failing input): a fully
successful login — credentials validate to 42, the user record and all
four inventory projections are served. Because `onLoginPacket` does not
await `sendUserInfoTo`/`sendInventory`, both suspend on gateway calls
right after `UserStart` is written, and the synchronous
`sendChannelListTo` writes `ChannelList` second — before the `UserInfo`
full update and every inventory frame, under either microtask resumption
order — whereas the claim says `ChannelList` comes last, after `UserInfo`
and the full inventory sequence. -/
theorem login_channel_list_precedes_inventory :
    (UserManager.onLoginPacket envLoginOk true "alice" "pw" 30002).1 = true ∧
    (UserManager.onLoginPacket envLoginOk true "alice" "pw" 30002).2 =
      [LoginMsg.userStart 42 "alice" "alice" 30002,
       LoginMsg.channelList,
       LoginMsg.userInfoFullUpdate 42,
       LoginMsg.inventoryItems [301, 302],
       LoginMsg.unlockBlob,
       LoginMsg.favSetCosmetics cosmeticsA,
       LoginMsg.favSetLoadout 7,
       LoginMsg.optSetBuyMenu 9] ∧
    (UserManager.onLoginPacket envLoginOk false "alice" "pw" 30002).2 =
      [LoginMsg.userStart 42 "alice" "alice" 30002,
       LoginMsg.channelList,
       LoginMsg.inventoryItems [301, 302],
       LoginMsg.unlockBlob,
       LoginMsg.favSetCosmetics cosmeticsA,
       LoginMsg.favSetLoadout 7,
       LoginMsg.optSetBuyMenu 9,
       LoginMsg.userInfoFullUpdate 42] :=
  ⟨rfl, rfl, rfl⟩

end CSO2
